import Mathlib

set_option linter.unusedVariables false

/-!
Verification of the tinyland logging middleware.

Shallow embedding of the TypeScript sources:
  - types.ts       : log levels, logger sinks, configuration record
  - config.ts      : configure / getConfig / resetConfig / getNoopLogger
  - create-logger.ts : createLogger / createScopedLogger
  - middleware.ts  : loggingMiddleware

Runtime JavaScript values are modelled by the inductive `JSVal`; the
process-wide configuration register is modelled by explicit state
passing; the two Date.now readings of one middleware invocation are
the parameters `t0` and `t1`; the continuation `next` is modelled by
its outcome (`Except` failure value / resolved value).  Log sinks are
modelled by identifiers, and each log statement becomes a `SinkEvent`
recording which sink received which message and context.
-/

/-- A runtime JavaScript value, restricted to the shapes this library
inspects: undefined, null, booleans, (integer) numbers, strings,
plain objects (association lists of fields) and error-like objects
(constructor-name and message). -/
inductive JSVal where
  | undef : JSVal
  | null : JSVal
  | bool : Bool → JSVal
  | num : Int → JSVal
  | str : String → JSVal
  | obj : List (String × JSVal) → JSVal
  | error : String → String → JSVal

/-- Is the value the JavaScript literal undefined. -/
def JSVal.isUndef : JSVal → Bool
  | .undef => true
  | _ => false

/-- Is the value the JavaScript literal null. -/
def JSVal.isNull : JSVal → Bool
  | .null => true
  | _ => false

/-- First binding of a key in an association list of object fields
(none when the key is absent). -/
def findField : List (String × JSVal) → String → Option JSVal
  | [], _ => none
  | (k, v) :: rest, key => if k = key then some v else findField rest key

/-- JavaScript property read on a value that is not undefined/null:
an object yields its field (undefined when absent), any other value
yields undefined for the property names this library uses. -/
def JSVal.getProp : JSVal → String → JSVal
  | .obj fields, key => (findField fields key).getD JSVal.undef
  | _, _ => JSVal.undef

/-- Optional chaining `v?.key`: undefined when the receiver is
undefined or null, otherwise a plain property read. -/
def JSVal.optProp (v : JSVal) (key : String) : JSVal :=
  if v.isUndef || v.isNull then JSVal.undef else v.getProp key

/-- Plain member access `v.key`: raises a TypeError when the receiver
is undefined or null, otherwise reads the property. -/
def JSVal.member (v : JSVal) (key : String) : Except JSVal JSVal :=
  if v.isUndef || v.isNull then
    Except.error (JSVal.error "TypeError"
      ("Cannot read properties of " ++ (if v.isUndef then "undefined" else "null")
        ++ " (reading " ++ key ++ ")"))
  else
    Except.ok (v.getProp key)

/-- Decimal digit characters of a natural number, most significant
first; `fuel` bounds the recursion and any `fuel > n` is enough. -/
def decChars (fuel n : Nat) : List Char :=
  match fuel with
  | 0 => []
  | fuel + 1 =>
    if n < 10 then [Char.ofNat (48 + n)]
    else decChars fuel (n / 10) ++ [Char.ofNat (48 + n % 10)]

/-- Decimal rendering of a natural number. -/
def decString (n : Nat) : String := String.mk (decChars (n + 1) n)

/-- JavaScript rendering of an integer number (template-literal
interpolation of an integral number). -/
def jsIntToString (i : Int) : String :=
  if i < 0 then "-" ++ decString i.natAbs else decString i.toNat

/-- JavaScript `String(v)` coercion for the modelled value shapes. -/
def jsStringOf : JSVal → String
  | .undef => "undefined"
  | .null => "null"
  | .bool b => if b then "true" else "false"
  | .num i => jsIntToString i
  | .str s => s
  | .obj _ => "[object Object]"
  | .error kind msg => if msg = "" then kind else kind ++ ": " ++ msg

/-- JavaScript `typeof v` for the modelled value shapes. -/
def jsTypeof : JSVal → String
  | .undef => "undefined"
  | .null => "object"
  | .bool _ => "boolean"
  | .num _ => "number"
  | .str _ => "string"
  | .obj _ => "object"
  | .error _ _ => "object"

/-- Does the value satisfy `v instanceof Error`. -/
def JSVal.isErrorLike : JSVal → Bool
  | .error _ _ => true
  | _ => false

/-- The `message` property of an error-like value. -/
def JSVal.errMessage : JSVal → String
  | .error _ msg => msg
  | _ => ""

/-- The `constructor.name` of an error-like value. -/
def JSVal.errName : JSVal → String
  | .error kind _ => kind
  | _ => ""

/-- Supported log severity levels (types.ts, `LogLevel`). -/
inductive LogLevel where
  | debug
  | info
  | warn
  | error
  deriving DecidableEq, BEq

/-- A logger sink identity: sinks are injected objects and the claims
compare them by identity, so they are modelled by identifiers. -/
abbrev Sink := Nat

/-- config.ts: the module-level no-op logger object, created once at
module load. -/
def noopLogger : Sink := 0

/-- types.ts `LoggingMiddlewareConfig`: a single-field record holding
the active sink. -/
structure LoggingMiddlewareConfig where
  logger : Sink
  deriving DecidableEq

/-- config.ts: the initial value of the module-level `currentConfig`
variable. -/
def initialConfig : LoggingMiddlewareConfig := { logger := noopLogger }

/-- config.ts `configure(config)`: replaces the current configuration
with a shallow copy of the given one (state-passing rendering of the
assignment to the module-level variable). -/
def configure (old : LoggingMiddlewareConfig) (config : LoggingMiddlewareConfig) :
    LoggingMiddlewareConfig :=
  { logger := config.logger }

/-- config.ts `getConfig()`: returns the current configuration. -/
def getConfig (current : LoggingMiddlewareConfig) : LoggingMiddlewareConfig :=
  current

/-- config.ts `resetConfig()`: restores the default configuration
holding the no-op logger. -/
def resetConfig (old : LoggingMiddlewareConfig) : LoggingMiddlewareConfig :=
  { logger := noopLogger }

/-- config.ts `getNoopLogger()`: returns the module-level no-op logger
instance (a nullary function; every call yields the same instance). -/
def getNoopLogger : Unit → Sink := fun _ => noopLogger

/-- One delivered log statement: which sink received it, at which
severity, with which message and context. -/
structure SinkEvent where
  sink : Sink
  level : LogLevel
  message : String
  context : List (String × JSVal)

/-- JavaScript object spread `\x7b ...base, ...extra \x7d` for two field
lists: keys of `base` keep their position but are overridden by a
matching key of `extra`; remaining keys of `extra` follow. -/
def spreadMerge (base extra : List (String × JSVal)) : List (String × JSVal) :=
  base.map (fun p => match findField extra p.1 with
    | some v => (p.1, v)
    | none => p)
  ++ extra.filter (fun q => (findField base q.1).isNone)

/-- create-logger.ts: the object returned by `createLogger`.  Its
closures capture the `component` argument and the `logger` constant
destructured from `getConfig()` in the factory body. -/
structure ScopedLogger where
  component : String
  logger : Sink

/-- create-logger.ts `createLogger(component)`: destructures `logger`
from `getConfig()` once, in the factory body, and returns the four
closures over that constant. -/
def createLogger (confAtCreation : LoggingMiddlewareConfig) (component : String) :
    ScopedLogger :=
  { component := component, logger := (getConfig confAtCreation).logger }

/-- create-logger.ts `createScopedLogger`: alias bound to the very same
function value as `createLogger`. -/
def createScopedLogger : LoggingMiddlewareConfig → String → ScopedLogger :=
  createLogger

/-- Body shared by the four closures of a scoped logger:
`logger.LEVEL(message, \x7b component, ...context \x7d)`.  The closure body
contains no `getConfig()` call, so the configuration current at call
time (`confAtCall`) is not consulted; the captured `logger` is used. -/
def ScopedLogger.emit (l : ScopedLogger) (confAtCall : LoggingMiddlewareConfig)
    (level : LogLevel) (message : String) (context : List (String × JSVal)) :
    SinkEvent :=
  { sink := l.logger, level := level, message := message,
    context := spreadMerge [("component", JSVal.str l.component)] context }

/-- The `debug` closure of a scoped logger. -/
def ScopedLogger.debug (l : ScopedLogger) (confAtCall : LoggingMiddlewareConfig)
    (message : String) (context : List (String × JSVal)) : SinkEvent :=
  l.emit confAtCall LogLevel.debug message context

/-- The `info` closure of a scoped logger. -/
def ScopedLogger.info (l : ScopedLogger) (confAtCall : LoggingMiddlewareConfig)
    (message : String) (context : List (String × JSVal)) : SinkEvent :=
  l.emit confAtCall LogLevel.info message context

/-- The `warn` closure of a scoped logger. -/
def ScopedLogger.warn (l : ScopedLogger) (confAtCall : LoggingMiddlewareConfig)
    (message : String) (context : List (String × JSVal)) : SinkEvent :=
  l.emit confAtCall LogLevel.warn message context

/-- The `error` closure of a scoped logger. -/
def ScopedLogger.error (l : ScopedLogger) (confAtCall : LoggingMiddlewareConfig)
    (message : String) (context : List (String × JSVal)) : SinkEvent :=
  l.emit confAtCall LogLevel.error message context

/-- middleware.ts: the `opts` argument of `loggingMiddleware`.  The
continuation `next` is modelled by its outcome: the value it resolves
with, or the value it rejects with. -/
structure MiddlewareOpts where
  ctx : JSVal
  path : Option String
  type : Option String
  next : Except JSVal JSVal

/-- middleware.ts `opts.path || 'unknown'` (and the analogue for
`opts.type`): the string when it is present and non-empty (the only
falsy string being the empty one), otherwise the literal "unknown". -/
def orUnknown : Option String → String
  | some s => if s = "" then "unknown" else s
  | none => "unknown"

/-- One conditionally inserted start-context field: the singleton
binding when the condition holds, nothing otherwise. -/
def optField (key : String) (cond : Bool) (v : JSVal) : List (String × JSVal) :=
  if cond then [(key, v)] else []

/-- middleware.ts: the start context, i.e. the base mapping
(component / procedure / procedureType) followed by the five guarded
field insertions, in source order.  `session` and `client` are the
values read from `ctx.session` and `ctx.client`. -/
def buildStartContext (path ty : Option String) (session client : JSVal) :
    List (String × JSVal) :=
  ("component", JSVal.str "trpc-middleware") ::
  ("procedure", JSVal.str (orUnknown path)) ::
  ("procedureType", JSVal.str (orUnknown ty)) ::
  (optField "sessionId"
      (!(session.optProp "id").isUndef && !(session.optProp "id").isNull)
      (session.optProp "id") ++
    (optField "userId"
        (!(session.optProp "userId").isUndef && !(session.optProp "userId").isNull)
        (session.optProp "userId") ++
      (optField "clientIpHash" (!(client.optProp "ipHash").isUndef)
          (client.optProp "ipHash") ++
        (optField "deviceType" (!(client.optProp "deviceType").isUndef)
            (client.optProp "deviceType") ++
          optField "browser" (!((client.optProp "browser").optProp "name").isUndef)
            ((client.optProp "browser").optProp "name")))))

/-- middleware.ts: the context of the success terminal entry. -/
def successContext (path ty : Option String) (duration : Int) :
    List (String × JSVal) :=
  [("component", JSVal.str "trpc-middleware"),
   ("procedure", JSVal.str (orUnknown path)),
   ("procedureType", JSVal.str (orUnknown ty)),
   ("duration", JSVal.str (jsIntToString duration ++ "ms")),
   ("success", JSVal.bool true)]

/-- middleware.ts: the context of the failure terminal entry, with the
`error` / `errorType` derivation
`error instanceof Error ? error.message : String(error)` and
`error instanceof Error ? error.constructor.name : typeof error`. -/
def failContext (path ty : Option String) (duration : Int) (failure : JSVal) :
    List (String × JSVal) :=
  [("component", JSVal.str "trpc-middleware"),
   ("procedure", JSVal.str (orUnknown path)),
   ("procedureType", JSVal.str (orUnknown ty)),
   ("duration", JSVal.str (jsIntToString duration ++ "ms")),
   ("success", JSVal.bool false),
   ("error", JSVal.str
      (if failure.isErrorLike then failure.errMessage else jsStringOf failure)),
   ("errorType", JSVal.str
      (if failure.isErrorLike then failure.errName else jsTypeof failure))]

/-- middleware.ts `loggingMiddleware`.  `conf` is the configuration
current when the function body starts (its single `getConfig()` call);
`confDuringNext` is the configuration current when the awaited
continuation settles — the body performs no further `getConfig()`
call, so it is never consulted.  `t0` and `t1` are the two `Date.now()`
readings.  The result pairs the emitted log statements, in order, with
the outcome delivered to the caller. -/
def loggingMiddleware (conf confDuringNext : LoggingMiddlewareConfig)
    (t0 t1 : Int) (o : MiddlewareOpts) :
    List SinkEvent × Except JSVal JSVal :=
  let logger := (getConfig conf).logger
  match o.ctx.member "session" with
  | Except.error e => ([], Except.error e)
  | Except.ok session =>
    match o.ctx.member "client" with
    | Except.error e => ([], Except.error e)
    | Except.ok client =>
      let startEvent : SinkEvent :=
        { sink := logger, level := LogLevel.info,
          message := "tRPC procedure called",
          context := buildStartContext o.path o.type session client }
      match o.next with
      | Except.ok result =>
        ([startEvent,
          { sink := logger, level := LogLevel.info,
            message := "tRPC procedure completed",
            context := successContext o.path o.type (t1 - t0) }],
         Except.ok result)
      | Except.error failure =>
        ([startEvent,
          { sink := logger, level := LogLevel.error,
            message := "tRPC procedure failed",
            context := failContext o.path o.type (t1 - t0) failure }],
         Except.error failure)

/-- A string consisting of one or more decimal digits followed by the
two characters m and s. -/
def IsDigitsMs (s : String) : Prop :=
  ∃ ds : List Char, ds ≠ [] ∧ ds.all Char.isDigit = true ∧ s.data = ds ++ ['m', 's']

/-! ## Helper lemmas -/

/-- Member access on a receiver that is neither undefined nor null
reads the property. -/
theorem member_ok (v : JSVal) (key : String)
    (h : (v.isUndef || v.isNull) = false) :
    v.member key = Except.ok (v.getProp key) := by
  simp [JSVal.member, h]

/-- On an undefined or null context, the middleware raises a TypeError
before emitting anything and never runs the continuation. -/
theorem loggingMiddleware_badctx (conf conf2 : LoggingMiddlewareConfig)
    (t0 t1 : Int) (o : MiddlewareOpts)
    (h : (o.ctx.isUndef || o.ctx.isNull) = true) :
    loggingMiddleware conf conf2 t0 t1 o =
      ([], Except.error (JSVal.error "TypeError"
        ("Cannot read properties of "
          ++ (if o.ctx.isUndef then "undefined" else "null")
          ++ " (reading " ++ "session" ++ ")"))) := by
  simp [loggingMiddleware, JSVal.member, h]

/-- Unfolding of the middleware on a usable context and a succeeding
continuation. -/
theorem loggingMiddleware_ok (conf conf2 : LoggingMiddlewareConfig)
    (t0 t1 : Int) (o : MiddlewareOpts) (r : JSVal)
    (hctx : (o.ctx.isUndef || o.ctx.isNull) = false)
    (hr : o.next = Except.ok r) :
    loggingMiddleware conf conf2 t0 t1 o =
      ([{ sink := (getConfig conf).logger, level := LogLevel.info,
          message := "tRPC procedure called",
          context := buildStartContext o.path o.type
            (o.ctx.getProp "session") (o.ctx.getProp "client") },
        { sink := (getConfig conf).logger, level := LogLevel.info,
          message := "tRPC procedure completed",
          context := successContext o.path o.type (t1 - t0) }],
       Except.ok r) := by
  simp [loggingMiddleware, member_ok _ _ hctx, hr]

/-- Unfolding of the middleware on a usable context and a failing
continuation. -/
theorem loggingMiddleware_err (conf conf2 : LoggingMiddlewareConfig)
    (t0 t1 : Int) (o : MiddlewareOpts) (v : JSVal)
    (hctx : (o.ctx.isUndef || o.ctx.isNull) = false)
    (hv : o.next = Except.error v) :
    loggingMiddleware conf conf2 t0 t1 o =
      ([{ sink := (getConfig conf).logger, level := LogLevel.info,
          message := "tRPC procedure called",
          context := buildStartContext o.path o.type
            (o.ctx.getProp "session") (o.ctx.getProp "client") },
        { sink := (getConfig conf).logger, level := LogLevel.error,
          message := "tRPC procedure failed",
          context := failContext o.path o.type (t1 - t0) v }],
       Except.error v) := by
  simp [loggingMiddleware, member_ok _ _ hctx, hv]

/-- Skipping a non-matching head binding. -/
theorem findField_cons_ne (k key : String) (v : JSVal)
    (rest : List (String × JSVal)) (h : k ≠ key) :
    findField ((k, v) :: rest) key = findField rest key := by
  simp [findField, h]

/-- Looking up the key of a conditional field. -/
theorem findField_optField_self (key : String) (c : Bool) (v : JSVal)
    (rest : List (String × JSVal)) :
    findField (optField key c v ++ rest) key =
      if c then some v else findField rest key := by
  cases c <;> simp [optField, findField]

/-- Skipping a conditional field with a different key. -/
theorem findField_optField_ne (key k : String) (c : Bool) (v : JSVal)
    (rest : List (String × JSVal)) (h : k ≠ key) :
    findField (optField k c v ++ rest) key = findField rest key := by
  cases c <;> simp [optField, findField, h]

/-- Looking up the key of a trailing conditional field. -/
theorem findField_optField_last_self (key : String) (c : Bool) (v : JSVal) :
    findField (optField key c v) key = if c then some v else none := by
  cases c <;> simp [optField, findField]

/-- Skipping a trailing conditional field with a different key. -/
theorem findField_optField_last_ne (key k : String) (c : Bool) (v : JSVal)
    (h : k ≠ key) :
    findField (optField k c v) key = none := by
  cases c <;> simp [optField, findField, h]

/-- The start context always binds component to the fixed literal. -/
theorem startContext_component (path ty : Option String) (session client : JSVal) :
    findField (buildStartContext path ty session client) "component" =
      some (JSVal.str "trpc-middleware") := by
  simp [buildStartContext, findField]

/-- The start context always binds procedure to the defaulted path. -/
theorem startContext_procedure (path ty : Option String) (session client : JSVal) :
    findField (buildStartContext path ty session client) "procedure" =
      some (JSVal.str (orUnknown path)) := by
  simp [buildStartContext, findField]

/-- The start context always binds procedureType to the defaulted type. -/
theorem startContext_procedureType (path ty : Option String) (session client : JSVal) :
    findField (buildStartContext path ty session client) "procedureType" =
      some (JSVal.str (orUnknown ty)) := by
  simp [buildStartContext, findField]

/-- sessionId appears in the start context exactly when session.id is
neither undefined nor null. -/
theorem startContext_sessionId (path ty : Option String) (session client : JSVal) :
    findField (buildStartContext path ty session client) "sessionId" =
      (if !(session.optProp "id").isUndef && !(session.optProp "id").isNull
       then some (session.optProp "id") else none) := by
  unfold buildStartContext
  rw [findField_cons_ne _ _ _ _ (by decide), findField_cons_ne _ _ _ _ (by decide),
      findField_cons_ne _ _ _ _ (by decide), findField_optField_self]
  cases hc : (!(session.optProp "id").isUndef && !(session.optProp "id").isNull)
  · rw [findField_optField_ne _ _ _ _ _ (by decide),
        findField_optField_ne _ _ _ _ _ (by decide),
        findField_optField_ne _ _ _ _ _ (by decide),
        findField_optField_last_ne _ _ _ _ (by decide)]
  · rfl

/-- userId appears in the start context exactly when session.userId is
neither undefined nor null. -/
theorem startContext_userId (path ty : Option String) (session client : JSVal) :
    findField (buildStartContext path ty session client) "userId" =
      (if !(session.optProp "userId").isUndef && !(session.optProp "userId").isNull
       then some (session.optProp "userId") else none) := by
  unfold buildStartContext
  rw [findField_cons_ne _ _ _ _ (by decide), findField_cons_ne _ _ _ _ (by decide),
      findField_cons_ne _ _ _ _ (by decide),
      findField_optField_ne _ _ _ _ _ (by decide), findField_optField_self]
  cases hc : (!(session.optProp "userId").isUndef && !(session.optProp "userId").isNull)
  · rw [findField_optField_ne _ _ _ _ _ (by decide),
        findField_optField_ne _ _ _ _ _ (by decide),
        findField_optField_last_ne _ _ _ _ (by decide)]
  · rfl

/-- clientIpHash appears in the start context exactly when
client.ipHash is not undefined (null is not excluded). -/
theorem startContext_clientIpHash (path ty : Option String) (session client : JSVal) :
    findField (buildStartContext path ty session client) "clientIpHash" =
      (if !(client.optProp "ipHash").isUndef
       then some (client.optProp "ipHash") else none) := by
  unfold buildStartContext
  rw [findField_cons_ne _ _ _ _ (by decide), findField_cons_ne _ _ _ _ (by decide),
      findField_cons_ne _ _ _ _ (by decide),
      findField_optField_ne _ _ _ _ _ (by decide),
      findField_optField_ne _ _ _ _ _ (by decide), findField_optField_self]
  cases hc : (!(client.optProp "ipHash").isUndef)
  · rw [findField_optField_ne _ _ _ _ _ (by decide),
        findField_optField_last_ne _ _ _ _ (by decide)]
  · rfl

/-- deviceType appears in the start context exactly when
client.deviceType is not undefined. -/
theorem startContext_deviceType (path ty : Option String) (session client : JSVal) :
    findField (buildStartContext path ty session client) "deviceType" =
      (if !(client.optProp "deviceType").isUndef
       then some (client.optProp "deviceType") else none) := by
  unfold buildStartContext
  rw [findField_cons_ne _ _ _ _ (by decide), findField_cons_ne _ _ _ _ (by decide),
      findField_cons_ne _ _ _ _ (by decide),
      findField_optField_ne _ _ _ _ _ (by decide),
      findField_optField_ne _ _ _ _ _ (by decide),
      findField_optField_ne _ _ _ _ _ (by decide), findField_optField_self]
  cases hc : (!(client.optProp "deviceType").isUndef)
  · rw [findField_optField_last_ne _ _ _ _ (by decide)]
  · rfl

/-- browser appears in the start context exactly when
client.browser.name (via optional chaining) is not undefined. -/
theorem startContext_browser (path ty : Option String) (session client : JSVal) :
    findField (buildStartContext path ty session client) "browser" =
      (if !((client.optProp "browser").optProp "name").isUndef
       then some ((client.optProp "browser").optProp "name") else none) := by
  unfold buildStartContext
  rw [findField_cons_ne _ _ _ _ (by decide), findField_cons_ne _ _ _ _ (by decide),
      findField_cons_ne _ _ _ _ (by decide),
      findField_optField_ne _ _ _ _ _ (by decide),
      findField_optField_ne _ _ _ _ _ (by decide),
      findField_optField_ne _ _ _ _ _ (by decide),
      findField_optField_ne _ _ _ _ _ (by decide), findField_optField_last_self]

/-- With enough fuel, the decimal rendering is never empty. -/
theorem decChars_ne_nil (fuel n : Nat) (h : n < fuel) : decChars fuel n ≠ [] := by
  match fuel with
  | fuel + 1 =>
    simp only [decChars]
    split
    · simp
    · simp

/-- A digit character built from a value below ten is a digit. -/
theorem digitChar_isDigit (d : Nat) (h : d < 10) :
    (Char.ofNat (48 + d)).isDigit = true := by
  interval_cases d <;> decide

/-- With enough fuel, every character of the decimal rendering is a
decimal digit. -/
theorem decChars_all_digits (fuel : Nat) :
    ∀ n, n < fuel → (decChars fuel n).all Char.isDigit = true := by
  induction fuel with
  | zero => intro n h; omega
  | succ fuel ih =>
    intro n h
    simp only [decChars]
    split
    · rename_i h10
      simp [digitChar_isDigit n h10]
    · rename_i h10
      have hlt : n / 10 < fuel := by
        have : n / 10 < n := Nat.div_lt_self (by omega) (by omega)
        omega
      rw [List.all_append]
      have hm : n % 10 < 10 := Nat.mod_lt _ (by omega)
      simp [ih _ hlt, digitChar_isDigit (n % 10) hm]

/-- The rendering of a natural number followed by ms matches the
digits-then-ms pattern. -/
theorem decString_digitsMs (n : Nat) : IsDigitsMs (decString n ++ "ms") := by
  refine ⟨decChars (n + 1) n, decChars_ne_nil _ _ (Nat.lt_succ_self n),
    decChars_all_digits _ n (Nat.lt_succ_self n), ?_⟩
  rw [String.data_append]
  rfl

/-- On a non-negative integer the JavaScript rendering agrees with the
decimal rendering of its absolute value. -/
theorem jsIntToString_nonneg (i : Int) (h : 0 ≤ i) :
    jsIntToString i = decString i.toNat := by
  simp [jsIntToString, not_lt.mpr h]

/-! ## Claim theorems -/

/-- C1 counterexample: a scoped logger created while sink 1 is
configured keeps delivering to sink 1 after sink 2 has been
configured; the call is not delivered to the currently configured
sink, refuting that the logger re-fetches the active sink per call. -/
theorem c1_counterexample :
    ((createLogger (configure initialConfig { logger := 1 }) "auth").info
        (configure (configure initialConfig { logger := 1 }) { logger := 2 })
        "User logged in" []).sink = 1
    ∧ (getConfig (configure (configure initialConfig { logger := 1 })
        { logger := 2 })).logger = 2
    ∧ ((createLogger (configure initialConfig { logger := 1 }) "auth").info
        (configure (configure initialConfig { logger := 1 }) { logger := 2 })
        "User logged in" []).sink ≠
      (getConfig (configure (configure initialConfig { logger := 1 })
        { logger := 2 })).logger :=
  ⟨rfl, rfl, by decide⟩

/-- C1 (amended): the logger returned by createLogger (and its
identity-equal alias createScopedLogger) captures the configured sink
once, at creation time; every subsequent debug/info/warn/error call is
delivered to that creation-time sink, regardless of the configuration
current at call time, so a reconfiguration after creation does not
affect an already-created logger. -/
theorem c1_theorem (confAtCreation confAtCall : LoggingMiddlewareConfig)
    (component message : String) (context : List (String × JSVal)) :
    ((createLogger confAtCreation component).debug confAtCall message context).sink
      = (getConfig confAtCreation).logger
    ∧ ((createLogger confAtCreation component).info confAtCall message context).sink
      = (getConfig confAtCreation).logger
    ∧ ((createLogger confAtCreation component).warn confAtCall message context).sink
      = (getConfig confAtCreation).logger
    ∧ ((createLogger confAtCreation component).error confAtCall message context).sink
      = (getConfig confAtCreation).logger
    ∧ createScopedLogger = createLogger :=
  ⟨rfl, rfl, rfl, rfl, rfl⟩

/-- C2 counterexample: an envelope whose context is undefined makes
the interceptor itself raise a TypeError before any entry is emitted
and before the continuation runs, even though the continuation
succeeds — a failure that does not originate from the continuation. -/
theorem c2_counterexample :
    (loggingMiddleware initialConfig initialConfig 0 0
        { ctx := JSVal.undef, path := none, type := none,
          next := Except.ok JSVal.null }).1 = []
    ∧ (loggingMiddleware initialConfig initialConfig 0 0
        { ctx := JSVal.undef, path := none, type := none,
          next := Except.ok JSVal.null }).2
      = Except.error (JSVal.error "TypeError"
          "Cannot read properties of undefined (reading session)") :=
  ⟨rfl, rfl⟩

/-- C2 (amended): provided the envelope context itself is neither
undefined nor null, the interceptor introduces no failure of its own:
context.session and context.client being absent or null (or any other
shape) are tolerated, and the outcome delivered to the caller is
exactly the continuation outcome.  A context that is itself
undefined/null instead raises a TypeError inside the interceptor. -/
theorem c2_theorem (conf conf2 : LoggingMiddlewareConfig) (t0 t1 : Int)
    (o : MiddlewareOpts) (hctx : (o.ctx.isUndef || o.ctx.isNull) = false) :
    (loggingMiddleware conf conf2 t0 t1 o).2 = o.next := by
  cases hn : o.next with
  | ok r => rw [loggingMiddleware_ok conf conf2 t0 t1 o r hctx hn]
  | error v => rw [loggingMiddleware_err conf conf2 t0 t1 o v hctx hn]

/-- C2 witness: a concrete envelope with empty-object context and a
failing continuation; the interceptor re-delivers exactly that
failure. -/
theorem c2_witness :
    ((JSVal.obj []).isUndef || (JSVal.obj []).isNull) = false
    ∧ (loggingMiddleware initialConfig initialConfig 0 0
        { ctx := JSVal.obj [], path := none, type := none,
          next := Except.error (JSVal.num 404) }).2
      = Except.error (JSVal.num 404) :=
  ⟨by decide, by rw [c2_theorem initialConfig initialConfig 0 0 _ (by decide)]⟩

/-- C9 counterexample: injecting the no-op instance itself and then
resetting leaves the configuration holding exactly the previously
injected sink, refuting that the restored sink is distinct from any
previously injected sink. -/
theorem c9_counterexample :
    (getConfig (resetConfig (configure initialConfig
        { logger := getNoopLogger () }))).logger
      = (getConfig (configure initialConfig
        { logger := getNoopLogger () })).logger
    ∧ (getConfig (configure initialConfig
        { logger := getNoopLogger () })).logger = getNoopLogger () :=
  ⟨rfl, rfl⟩

/-- C9 (amended): resetConfig is idempotent and always restores the
configuration holding the no-op sink: after any resetConfig, the
configured logger is the single no-op instance that every
getNoopLogger call returns (the same instance across repeated resets
and repeated calls), and it is distinct from any previously injected
sink other than the no-op instance itself; after configure the
configured logger is exactly the injected sink. -/
theorem c9_theorem (c c2 : LoggingMiddlewareConfig) (s : Sink) :
    resetConfig (resetConfig c) = resetConfig c
    ∧ (getConfig (resetConfig c)).logger = getNoopLogger ()
    ∧ (resetConfig c).logger = (resetConfig c2).logger
    ∧ (∀ u u2 : Unit, getNoopLogger u = getNoopLogger u2)
    ∧ (s ≠ getNoopLogger () →
        (getConfig (resetConfig (configure c { logger := s }))).logger ≠ s)
    ∧ (getConfig (configure c { logger := s })).logger = s :=
  ⟨rfl, rfl, rfl, fun _ _ => rfl, fun h heq => h heq.symm, rfl⟩

/-- C9 witness: a concrete mock sink distinct from the no-op one; the
reset restores a sink distinct from it. -/
theorem c9_witness :
    (1 : Sink) ≠ getNoopLogger ()
    ∧ (getConfig (resetConfig (configure initialConfig { logger := 1 }))).logger
      ≠ (1 : Sink) :=
  ⟨by decide,
    (c9_theorem initialConfig initialConfig 1).2.2.2.2.1 (by decide)⟩

/-- C10: within one invocation the middleware reads the sink from the
configuration once, up front, and that same sink receives every entry
of the invocation: the emitted trace and outcome are independent of
the configuration active while the continuation is pending, and every
emitted entry carries the sink of the configuration read at entry. -/
theorem c10_theorem (conf confMid confMid2 : LoggingMiddlewareConfig)
    (t0 t1 : Int) (o : MiddlewareOpts) :
    loggingMiddleware conf confMid t0 t1 o
      = loggingMiddleware conf confMid2 t0 t1 o
    ∧ ((loggingMiddleware conf confMid t0 t1 o).1.all
        (fun e => e.sink == (getConfig conf).logger)) = true := by
  refine ⟨rfl, ?_⟩
  cases hctx : (o.ctx.isUndef || o.ctx.isNull) with
  | true => rw [loggingMiddleware_badctx conf confMid t0 t1 o hctx]; rfl
  | false =>
    cases hn : o.next with
    | ok r => rw [loggingMiddleware_ok conf confMid t0 t1 o r hctx hn]; simp
    | error v => rw [loggingMiddleware_err conf confMid t0 t1 o v hctx hn]; simp

/-- C3: when the continuation fails with value v, the middleware emits
exactly one error-severity entry, with message tRPC procedure failed,
whose context carries success false, error derived as the message of
an error-like failure and otherwise its lexical string form, and
errorType derived as the concrete kind name of an error-like failure
and otherwise the runtime type tag; and the middleware re-raises
exactly v. -/
theorem c3_theorem (conf conf2 : LoggingMiddlewareConfig) (t0 t1 : Int)
    (o : MiddlewareOpts) (v : JSVal)
    (hctx : (o.ctx.isUndef || o.ctx.isNull) = false)
    (hv : o.next = Except.error v) :
    ((loggingMiddleware conf conf2 t0 t1 o).1.countP
        (fun e => e.level == LogLevel.error)) = 1
    ∧ (∃ s t, (loggingMiddleware conf conf2 t0 t1 o).1 = [s, t]
        ∧ t.level = LogLevel.error
        ∧ t.message = "tRPC procedure failed"
        ∧ findField t.context "success" = some (JSVal.bool false)
        ∧ findField t.context "error" = some (JSVal.str
            (if v.isErrorLike then v.errMessage else jsStringOf v))
        ∧ findField t.context "errorType" = some (JSVal.str
            (if v.isErrorLike then v.errName else jsTypeof v)))
    ∧ (loggingMiddleware conf conf2 t0 t1 o).2 = Except.error v := by
  rw [loggingMiddleware_err conf conf2 t0 t1 o v hctx hv]
  exact ⟨rfl, ⟨_, _, rfl, rfl, rfl, rfl, rfl, rfl⟩, rfl⟩

/-- C3 witness: a numeric failure 404 yields error 404 and errorType
number, and is re-raised identically. -/
theorem c3_witness :
    ((JSVal.obj []).isUndef || (JSVal.obj []).isNull) = false
    ∧ (∃ s t, (loggingMiddleware initialConfig initialConfig 0 0
          { ctx := JSVal.obj [], path := some "user.delete",
            type := some "mutation",
            next := Except.error (JSVal.num 404) }).1 = [s, t]
        ∧ t.level = LogLevel.error
        ∧ t.message = "tRPC procedure failed"
        ∧ findField t.context "success" = some (JSVal.bool false)
        ∧ findField t.context "error" = some (JSVal.str "404")
        ∧ findField t.context "errorType" = some (JSVal.str "number"))
    ∧ (loggingMiddleware initialConfig initialConfig 0 0
        { ctx := JSVal.obj [], path := some "user.delete",
          type := some "mutation",
          next := Except.error (JSVal.num 404) }).2
      = Except.error (JSVal.num 404) := by
  obtain ⟨h1, ⟨s, t, hlist, hlvl, hmsg, hsucc, herr, htype⟩, hres⟩ :=
    c3_theorem initialConfig initialConfig 0 0
      { ctx := JSVal.obj [], path := some "user.delete",
        type := some "mutation", next := Except.error (JSVal.num 404) }
      (JSVal.num 404) (by decide) rfl
  exact ⟨by decide, ⟨s, t, hlist, hlvl, hmsg, hsucc, by rw [herr]; rfl,
    by rw [htype]; rfl⟩, hres⟩

/-- C4 counterexample: an envelope whose context is null makes the
middleware emit zero entries — no start entry and no terminal entry —
refuting that every invocation emits exactly one of each. -/
theorem c4_counterexample :
    (loggingMiddleware initialConfig initialConfig 0 0
        { ctx := JSVal.null, path := some "user.delete", type := some "query",
          next := Except.ok (JSVal.str "r") }).1 = []
    ∧ ((loggingMiddleware initialConfig initialConfig 0 0
        { ctx := JSVal.null, path := some "user.delete", type := some "query",
          next := Except.ok (JSVal.str "r") }).1.countP
        (fun e => e.message == "tRPC procedure called")) = 0 :=
  ⟨rfl, rfl⟩

/-- C4 (amended): every invocation whose envelope context is neither
undefined nor null emits exactly one start entry (informational,
message tRPC procedure called, before the continuation outcome is
inspected) and exactly one terminal entry — completed exactly when the
continuation succeeds, failed exactly when it fails, never both —
with the start entry strictly before the terminal entry; an
undefined/null context instead emits nothing and raises. -/
theorem c4_theorem (conf conf2 : LoggingMiddlewareConfig) (t0 t1 : Int)
    (o : MiddlewareOpts) (hctx : (o.ctx.isUndef || o.ctx.isNull) = false) :
    ∃ s t, (loggingMiddleware conf conf2 t0 t1 o).1 = [s, t]
    ∧ s.level = LogLevel.info
    ∧ s.message = "tRPC procedure called"
    ∧ ((loggingMiddleware conf conf2 t0 t1 o).1.countP
        (fun e => e.message == "tRPC procedure called")) = 1
    ∧ ((loggingMiddleware conf conf2 t0 t1 o).1.countP
        (fun e => e.message == "tRPC procedure completed"
          || e.message == "tRPC procedure failed")) = 1
    ∧ (t.message = "tRPC procedure completed" ↔ (∃ r, o.next = Except.ok r))
    ∧ (t.message = "tRPC procedure failed" ↔ (∃ v, o.next = Except.error v)) := by
  cases hn : o.next with
  | ok r =>
    rw [loggingMiddleware_ok conf conf2 t0 t1 o r hctx hn]
    refine ⟨_, _, rfl, rfl, rfl, rfl, rfl, ?_, ?_⟩
    · exact ⟨fun _ => ⟨r, rfl⟩, fun _ => rfl⟩
    · constructor
      · intro h; exact absurd h (by simp)
      · rintro ⟨v, hv⟩; exact Except.noConfusion hv
  | error v =>
    rw [loggingMiddleware_err conf conf2 t0 t1 o v hctx hn]
    refine ⟨_, _, rfl, rfl, rfl, rfl, rfl, ?_, ?_⟩
    · constructor
      · intro h; exact absurd h (by simp)
      · rintro ⟨r, hr⟩; exact Except.noConfusion hr
    · exact ⟨fun _ => ⟨v, rfl⟩, fun _ => rfl⟩

/-- C4 witness: a concrete successful invocation has one start and one
terminal entry, the terminal being the completed one. -/
theorem c4_witness :
    ((JSVal.obj []).isUndef || (JSVal.obj []).isNull) = false
    ∧ ∃ s t, (loggingMiddleware initialConfig initialConfig 0 0
        { ctx := JSVal.obj [], path := some "test.hello", type := some "query",
          next := Except.ok (JSVal.obj [("ok", JSVal.bool true)]) }).1 = [s, t]
      ∧ s.message = "tRPC procedure called"
      ∧ t.message = "tRPC procedure completed" := by
  obtain ⟨s, t, hlist, hlvl, hmsg, hc1, hc2, hiff, hiff2⟩ :=
    c4_theorem initialConfig initialConfig 0 0
      { ctx := JSVal.obj [], path := some "test.hello", type := some "query",
        next := Except.ok (JSVal.obj [("ok", JSVal.bool true)]) } (by decide)
  exact ⟨by decide, s, t, hlist, hmsg,
    hiff.mpr ⟨JSVal.obj [("ok", JSVal.bool true)], rfl⟩⟩

/-- C5: the start-context inclusion policy: sessionId (resp. userId)
is present exactly when context.session.id (resp. userId) is neither
undefined nor null; clientIpHash (resp. deviceType) is present exactly
when context.client.ipHash (resp. deviceType) is not undefined, an
explicit null value not being excluded; browser is present with value
context.client.browser.name exactly when that name, read through
optional chaining, is not undefined — so an absent browser object, a
null browser, or a browser lacking name all yield omission, without
error. -/
theorem c5_theorem (conf conf2 : LoggingMiddlewareConfig) (t0 t1 : Int)
    (o : MiddlewareOpts) (hctx : (o.ctx.isUndef || o.ctx.isNull) = false) :
    ∃ s, (loggingMiddleware conf conf2 t0 t1 o).1.head? = some s
    ∧ s.message = "tRPC procedure called"
    ∧ findField s.context "sessionId" =
        (if !((o.ctx.getProp "session").optProp "id").isUndef
            && !((o.ctx.getProp "session").optProp "id").isNull
         then some ((o.ctx.getProp "session").optProp "id") else none)
    ∧ findField s.context "userId" =
        (if !((o.ctx.getProp "session").optProp "userId").isUndef
            && !((o.ctx.getProp "session").optProp "userId").isNull
         then some ((o.ctx.getProp "session").optProp "userId") else none)
    ∧ findField s.context "clientIpHash" =
        (if !((o.ctx.getProp "client").optProp "ipHash").isUndef
         then some ((o.ctx.getProp "client").optProp "ipHash") else none)
    ∧ findField s.context "deviceType" =
        (if !((o.ctx.getProp "client").optProp "deviceType").isUndef
         then some ((o.ctx.getProp "client").optProp "deviceType") else none)
    ∧ findField s.context "browser" =
        (if !(((o.ctx.getProp "client").optProp "browser").optProp "name").isUndef
         then some (((o.ctx.getProp "client").optProp "browser").optProp "name")
         else none) := by
  cases hn : o.next with
  | ok r =>
    rw [loggingMiddleware_ok conf conf2 t0 t1 o r hctx hn]
    exact ⟨_, rfl, rfl, startContext_sessionId _ _ _ _,
      startContext_userId _ _ _ _, startContext_clientIpHash _ _ _ _,
      startContext_deviceType _ _ _ _, startContext_browser _ _ _ _⟩
  | error v =>
    rw [loggingMiddleware_err conf conf2 t0 t1 o v hctx hn]
    exact ⟨_, rfl, rfl, startContext_sessionId _ _ _ _,
      startContext_userId _ _ _ _, startContext_clientIpHash _ _ _ _,
      startContext_deviceType _ _ _ _, startContext_browser _ _ _ _⟩

/-- C5 witness: session id s1 with null userId, a null ipHash, no
deviceType key, and a null browser: sessionId kept, userId omitted,
clientIpHash kept with value null, deviceType and browser omitted. -/
theorem c5_witness :
    ((JSVal.obj [("session", JSVal.obj [("id", JSVal.str "s1"),
          ("userId", JSVal.null)]),
        ("client", JSVal.obj [("ipHash", JSVal.null),
          ("browser", JSVal.null)])]).isUndef
      || (JSVal.obj [("session", JSVal.obj [("id", JSVal.str "s1"),
          ("userId", JSVal.null)]),
        ("client", JSVal.obj [("ipHash", JSVal.null),
          ("browser", JSVal.null)])]).isNull) = false
    ∧ ∃ s, (loggingMiddleware initialConfig initialConfig 0 0
        { ctx := JSVal.obj [("session", JSVal.obj [("id", JSVal.str "s1"),
              ("userId", JSVal.null)]),
            ("client", JSVal.obj [("ipHash", JSVal.null),
              ("browser", JSVal.null)])],
          path := some "test.hello", type := some "query",
          next := Except.ok JSVal.null }).1.head? = some s
      ∧ findField s.context "sessionId" = some (JSVal.str "s1")
      ∧ findField s.context "userId" = none
      ∧ findField s.context "clientIpHash" = some JSVal.null
      ∧ findField s.context "deviceType" = none
      ∧ findField s.context "browser" = none := by
  obtain ⟨s, hhead, hmsg, hsid, huid, hip, hdev, hbr⟩ :=
    c5_theorem initialConfig initialConfig 0 0
      { ctx := JSVal.obj [("session", JSVal.obj [("id", JSVal.str "s1"),
            ("userId", JSVal.null)]),
          ("client", JSVal.obj [("ipHash", JSVal.null),
            ("browser", JSVal.null)])],
        path := some "test.hello", type := some "query",
        next := Except.ok JSVal.null } (by decide)
  exact ⟨by decide, s, hhead, by rw [hsid]; rfl, by rw [huid]; rfl,
    by rw [hip]; rfl, by rw [hdev]; rfl, by rw [hbr]; rfl⟩

/-- C6: when the continuation succeeds with r, the middleware returns
exactly r and the terminal entry is informational, with message tRPC
procedure completed, and a context of exactly the five fields
component, procedure, procedureType, duration and success true — no
session or client fields. -/
theorem c6_theorem (conf conf2 : LoggingMiddlewareConfig) (t0 t1 : Int)
    (o : MiddlewareOpts) (r : JSVal)
    (hctx : (o.ctx.isUndef || o.ctx.isNull) = false)
    (hr : o.next = Except.ok r) :
    (loggingMiddleware conf conf2 t0 t1 o).2 = Except.ok r
    ∧ (∃ s, (loggingMiddleware conf conf2 t0 t1 o).1 =
        [s, { sink := (getConfig conf).logger, level := LogLevel.info,
              message := "tRPC procedure completed",
              context := [("component", JSVal.str "trpc-middleware"),
                ("procedure", JSVal.str (orUnknown o.path)),
                ("procedureType", JSVal.str (orUnknown o.type)),
                ("duration", JSVal.str (jsIntToString (t1 - t0) ++ "ms")),
                ("success", JSVal.bool true)] }])
    ∧ findField (successContext o.path o.type (t1 - t0)) "sessionId" = none
    ∧ findField (successContext o.path o.type (t1 - t0)) "userId" = none
    ∧ findField (successContext o.path o.type (t1 - t0)) "clientIpHash" = none
    ∧ findField (successContext o.path o.type (t1 - t0)) "deviceType" = none
    ∧ findField (successContext o.path o.type (t1 - t0)) "browser" = none := by
  rw [loggingMiddleware_ok conf conf2 t0 t1 o r hctx hr]
  exact ⟨rfl, ⟨_, rfl⟩, rfl, rfl, rfl, rfl, rfl⟩

/-- C6 witness: a null result is returned unchanged. -/
theorem c6_witness :
    ((JSVal.obj []).isUndef || (JSVal.obj []).isNull) = false
    ∧ (loggingMiddleware initialConfig initialConfig 1000 1050
        { ctx := JSVal.obj [], path := some "user.delete", type := some "mutation",
          next := Except.ok JSVal.null }).2 = Except.ok JSVal.null := by
  obtain ⟨hres, -, -, -, -, -, -⟩ :=
    c6_theorem initialConfig initialConfig 1000 1050
      { ctx := JSVal.obj [], path := some "user.delete", type := some "mutation",
        next := Except.ok JSVal.null } JSVal.null (by decide) rfl
  exact ⟨by decide, hres⟩

/-- C7: the start context carries the fixed component literal; its
procedure is the envelope path when that is a non-empty string and the
literal unknown otherwise (the same for type and procedureType); and
the terminal entry carries the same procedure and procedureType values
as the start entry. -/
theorem c7_theorem (conf conf2 : LoggingMiddlewareConfig) (t0 t1 : Int)
    (o : MiddlewareOpts) (hctx : (o.ctx.isUndef || o.ctx.isNull) = false) :
    ∃ s t, (loggingMiddleware conf conf2 t0 t1 o).1 = [s, t]
    ∧ findField s.context "component" = some (JSVal.str "trpc-middleware")
    ∧ (o.path = none →
        findField s.context "procedure" = some (JSVal.str "unknown"))
    ∧ (o.path = some "" →
        findField s.context "procedure" = some (JSVal.str "unknown"))
    ∧ (∀ p, o.path = some p → p ≠ "" →
        findField s.context "procedure" = some (JSVal.str p))
    ∧ (o.type = none →
        findField s.context "procedureType" = some (JSVal.str "unknown"))
    ∧ (o.type = some "" →
        findField s.context "procedureType" = some (JSVal.str "unknown"))
    ∧ (∀ q, o.type = some q → q ≠ "" →
        findField s.context "procedureType" = some (JSVal.str q))
    ∧ findField t.context "procedure" = findField s.context "procedure"
    ∧ findField t.context "procedureType" = findField s.context "procedureType" := by
  cases hn : o.next with
  | ok r =>
    rw [loggingMiddleware_ok conf conf2 t0 t1 o r hctx hn]
    refine ⟨_, _, rfl, startContext_component _ _ _ _, ?_, ?_, ?_, ?_, ?_, ?_,
      ?_, ?_⟩
    · intro h; rw [startContext_procedure, h]; rfl
    · intro h; rw [startContext_procedure, h]; rfl
    · intro p hp hne; rw [startContext_procedure, hp]; simp [orUnknown, hne]
    · intro h; rw [startContext_procedureType, h]; rfl
    · intro h; rw [startContext_procedureType, h]; rfl
    · intro q hq hne; rw [startContext_procedureType, hq]; simp [orUnknown, hne]
    · rw [startContext_procedure]; rfl
    · rw [startContext_procedureType]; rfl
  | error v =>
    rw [loggingMiddleware_err conf conf2 t0 t1 o v hctx hn]
    refine ⟨_, _, rfl, startContext_component _ _ _ _, ?_, ?_, ?_, ?_, ?_, ?_,
      ?_, ?_⟩
    · intro h; rw [startContext_procedure, h]; rfl
    · intro h; rw [startContext_procedure, h]; rfl
    · intro p hp hne; rw [startContext_procedure, hp]; simp [orUnknown, hne]
    · intro h; rw [startContext_procedureType, h]; rfl
    · intro h; rw [startContext_procedureType, h]; rfl
    · intro q hq hne; rw [startContext_procedureType, hq]; simp [orUnknown, hne]
    · rw [startContext_procedure]; rfl
    · rw [startContext_procedureType]; rfl

/-- C7 witness: an empty-string path resolves to unknown while a
non-empty type is kept, and the terminal entry repeats both values. -/
theorem c7_witness :
    ((JSVal.obj []).isUndef || (JSVal.obj []).isNull) = false
    ∧ ∃ s t, (loggingMiddleware initialConfig initialConfig 0 0
        { ctx := JSVal.obj [], path := some "", type := some "query",
          next := Except.ok JSVal.null }).1 = [s, t]
      ∧ findField s.context "component" = some (JSVal.str "trpc-middleware")
      ∧ findField s.context "procedure" = some (JSVal.str "unknown")
      ∧ findField s.context "procedureType" = some (JSVal.str "query")
      ∧ findField t.context "procedure" = findField s.context "procedure"
      ∧ findField t.context "procedureType" = findField s.context "procedureType" := by
  obtain ⟨s, t, hlist, hcomp, hpn, hpe, hpv, htn, hte, htv, htp, htt⟩ :=
    c7_theorem initialConfig initialConfig 0 0
      { ctx := JSVal.obj [], path := some "", type := some "query",
        next := Except.ok JSVal.null } (by decide)
  exact ⟨by decide, s, t, hlist, hcomp, hpe rfl,
    htv "query" rfl (by decide), htp, htt⟩

/-- C8: the duration of the terminal entry is the string formed from
the non-negative integer difference of the two clock readings of the
invocation followed by ms, and it matches the pattern one-or-more
digits followed by ms. -/
theorem c8_theorem (conf conf2 : LoggingMiddlewareConfig) (t0 t1 : Int)
    (o : MiddlewareOpts) (hctx : (o.ctx.isUndef || o.ctx.isNull) = false)
    (hts : t0 ≤ t1) :
    ∃ s t, (loggingMiddleware conf conf2 t0 t1 o).1 = [s, t]
    ∧ findField t.context "duration"
        = some (JSVal.str (decString (t1 - t0).toNat ++ "ms"))
    ∧ ((t1 - t0).toNat : Int) = t1 - t0
    ∧ IsDigitsMs (decString (t1 - t0).toNat ++ "ms") := by
  have h0 : (0 : Int) ≤ t1 - t0 := by omega
  cases hn : o.next with
  | ok r =>
    rw [loggingMiddleware_ok conf conf2 t0 t1 o r hctx hn]
    refine ⟨_, _, rfl, ?_, by omega, decString_digitsMs _⟩
    have hd : findField (successContext o.path o.type (t1 - t0)) "duration"
        = some (JSVal.str (jsIntToString (t1 - t0) ++ "ms")) := rfl
    rw [hd, jsIntToString_nonneg _ h0]
  | error v =>
    rw [loggingMiddleware_err conf conf2 t0 t1 o v hctx hn]
    refine ⟨_, _, rfl, ?_, by omega, decString_digitsMs _⟩
    have hd : findField (failContext o.path o.type (t1 - t0) v) "duration"
        = some (JSVal.str (jsIntToString (t1 - t0) ++ "ms")) := rfl
    rw [hd, jsIntToString_nonneg _ h0]

/-- C8 witness: clock readings 1000 then 1050 yield duration 50ms. -/
theorem c8_witness :
    ((JSVal.obj []).isUndef || (JSVal.obj []).isNull) = false
    ∧ (1000 : Int) ≤ 1050
    ∧ ∃ s t, (loggingMiddleware initialConfig initialConfig 1000 1050
        { ctx := JSVal.obj [], path := some "user.delete", type := some "mutation",
          next := Except.ok (JSVal.obj [("ok", JSVal.bool true)]) }).1 = [s, t]
      ∧ findField t.context "duration" = some (JSVal.str "50ms")
      ∧ IsDigitsMs "50ms" := by
  obtain ⟨s, t, hlist, hdur, hnn, hpat⟩ :=
    c8_theorem initialConfig initialConfig 1000 1050
      { ctx := JSVal.obj [], path := some "user.delete", type := some "mutation",
        next := Except.ok (JSVal.obj [("ok", JSVal.bool true)]) }
      (by decide) (by decide)
  refine ⟨by decide, by decide, s, t, hlist, by rw [hdur]; rfl, ?_⟩
  have h : ("50ms" : String) = decString ((1050 : Int) - 1000).toNat ++ "ms" := rfl
  rw [h]
  exact hpat
